import Mathlib

/-
Verification of the jsc ChakraCore bridge header (details namespace).

The development shallowly embeds the bridge's marshaling and trampoline
logic.  Engine primitives (JsCreateError, JsSetException,
JsGetAndClearException, JsNumberToInt, ...) are modelled as total
operations on an explicit engine state; JsNumberToInt follows the
engine's documented ECMAScript ToInt32 behaviour.  Doubles are modelled
by exact integers, which is faithful for every integer of magnitude at
most 2^53 (the exactly representable range); theorems about the wide
numeric path carry that bound as a hypothesis.  Host C++ exceptions
raised during marshaling or inside a bound callable body are modelled by
the HostResult sum: the four catch branches of the value::function
trampoline distinguish exactly these cases.
-/

/-- Engine failure codes consumed by the bridge (chakracommon.h subset
that map_error distinguishes; every other code falls in JsErrorOther). -/
inductive JsErrorCode where
  | JsNoError
  | JsErrorInvalidArgument
  | JsErrorNullArgument
  | JsErrorArgumentNotObject
  | JsErrorOutOfMemory
  | JsErrorScriptException
  | JsErrorScriptCompile
  | JsErrorFatal
  | JsErrorInExceptionState
  | JsErrorOther
  deriving DecidableEq, Repr

/-- The bridge's typed failure taxonomy (enum class remapped_error). -/
inductive remapped_error where
  | InvalidArgument
  | NullArgument
  | NotAnObject
  | OutOfMemory
  | ScriptError
  | SyntaxError
  | FatalError
  | Exception
  | Unexpected
  deriving DecidableEq, Repr

/-- Translation of details::map_error: the static switch from engine
failure codes to the remapped_error taxonomy. -/
def map_error : JsErrorCode → remapped_error
  | .JsErrorInvalidArgument => .InvalidArgument
  | .JsErrorNullArgument => .NullArgument
  | .JsErrorArgumentNotObject => .NotAnObject
  | .JsErrorOutOfMemory => .OutOfMemory
  | .JsErrorScriptException => .ScriptError
  | .JsErrorScriptCompile => .SyntaxError
  | .JsErrorFatal => .FatalError
  | .JsErrorInExceptionState => .Exception
  | _ => .Unexpected

/-- Dynamic engine values, as far as the claims need them.  invalid is
JS_INVALID_REFERENCE (the default-constructed jsc::value).  number
carries the exact integer payload of an integer-valued engine number
(both the JsIntToNumber and the JsDoubleToNumber construction paths
feed integers in the claims).  errorObj is an engine Error object
(isRange distinguishes JsCreateRangeError from JsCreateError) carrying
its message property. -/
inductive JsValue where
  | invalid
  | undefined
  | null
  | boolean (b : Bool)
  | number (n : Int)
  | str (s : String)
  | errorObj (isRange : Bool) (msg : String)
  deriving DecidableEq, Repr

/-- The per-context engine state the claims observe: the pending
(thrown but not yet delivered) script exception. -/
structure EngineState where
  pending : Option JsValue
  deriving DecidableEq, Repr

/-- JsSetException: records the value as the pending script exception. -/
def setException (e : JsValue) (s : EngineState) : EngineState :=
  { s with pending := some e }

/-- JsValue test used by the containment theorems: is this value an
engine Error object (as produced by JsCreateError / JsCreateRangeError). -/
def is_error : JsValue → Bool
  | .errorObj _ _ => true
  | _ => false

/-- ECMAScript ToInt32: the conversion JsNumberToInt applies to an
integer-valued engine number before storing it in a 32-bit int. -/
def toInt32 (n : Int) : Int := (n + 2 ^ 31) % 2 ^ 32 - 2 ^ 31

/-- value::as_int, i.e. check(JsNumberToInt(val, &result)): requires a
number, converts with ToInt32 semantics; any other value type makes the
engine call fail and check throw. -/
def as_int : JsValue → Except JsErrorCode Int
  | .number n => .ok (toInt32 n)
  | _ => .error .JsErrorInvalidArgument

/-- value::as_double, i.e. check(JsNumberToDouble(val, &result)); the
payload is exact for magnitudes at most 2^53. -/
def as_double : JsValue → Except JsErrorCode Int
  | .number n => .ok n
  | _ => .error .JsErrorInvalidArgument

/-- value::as_string, i.e. check(JsStringToPointer(...)): requires an
engine string. -/
def as_string : JsValue → Except JsErrorCode String
  | .str s => .ok s
  | _ => .error .JsErrorInvalidArgument

/-- JsConvertValueToString followed by as_string, as used by
value::to_string; fails on JS_INVALID_REFERENCE.  Error objects print
as name-colon-message per the engine's Error toString. -/
def jsToString : JsValue → Except JsErrorCode String
  | .invalid => .error .JsErrorInvalidArgument
  | .undefined => .ok "undefined"
  | .null => .ok "null"
  | .boolean b => .ok (if b then "true" else "false")
  | .number n => .ok (toString n)
  | .str s => .ok s
  | .errorObj true m => .ok ("RangeError: " ++ m)
  | .errorObj false m => .ok ("Error: " ++ m)

/-- JsGetProperty as exercised by exception_details: reading a named
property.  Error objects expose their message property; other readable
values yield undefined; null, undefined and invalid references make the
engine call fail. -/
def getProp (v : JsValue) (name : String) : Except JsErrorCode JsValue :=
  match v with
  | .invalid => .error .JsErrorInvalidArgument
  | .undefined => .error .JsErrorScriptException
  | .null => .error .JsErrorScriptException
  | .errorObj _ m => .ok (if name = "message" then .str m else .undefined)
  | _ => .ok .undefined

/-- The static error_messages table of exception::to_js_exception,
indexed by remapped_error in declaration order. -/
def error_message : remapped_error → String
  | .InvalidArgument => "Invalid argument"
  | .NullArgument => "Null argument"
  | .NotAnObject => "Argument not an object"
  | .OutOfMemory => "Out of memory"
  | .ScriptError => "Script error"
  | .SyntaxError => "Syntax error"
  | .FatalError => "Fatal error"
  | .Exception => "Exception"
  | .Unexpected => "Unexpected code"

/-- details::identity: the default position-remapping functor. -/
def identity_posmap : Int × Int → Int × Int := fun p => p

/-- Translation of details::print_exception(code, posmap).  For compile
and script failures it drains the pending exception
(JsGetAndClearException) and formats its text; every engine failure
inside the block is caught, leaving the message collected so far.  The
result pairs the remapped category with the detail message. -/
def print_exception (code : JsErrorCode) (posmap : Int × Int → Int × Int)
    (s : EngineState) : (remapped_error × String) × EngineState :=
  let remappedcode := map_error code
  if code = .JsErrorScriptCompile ∨ code = .JsErrorScriptException then
    match s.pending with
    | none => ((remappedcode, ""), s)
    | some einfo =>
      let s1 : EngineState := { s with pending := none }
      match jsToString einfo with
      | .error _ => ((remappedcode, ""), s1)
      | .ok msg =>
        if code = .JsErrorScriptCompile then
          match (getProp einfo "line").bind as_int,
              (getProp einfo "column").bind as_int with
          | .ok line, .ok column =>
            let lc := posmap (line, column)
            ((remappedcode,
              msg ++ " (" ++ toString lc.1 ++ ":" ++ toString lc.2 ++ ")"), s1)
          | _, _ => ((remappedcode, msg), s1)
        else
          match (getProp einfo "stack").bind as_string with
          | .ok st => ((remappedcode, st), s1)
          | .error _ => ((remappedcode, msg), s1)
  else ((remappedcode, ""), s)

/-- Translation of exception::to_js_exception: formats the categorized
message, creates an Error, sets it pending and returns it.  (The
source's inner catch only fires when JsCreateError or JsSetException
themselves fail; engine primitives are total in this model.) -/
def to_js_exception (code : JsErrorCode) (posmap : Int × Int → Int × Int)
    (s : EngineState) : JsValue × EngineState :=
  let einfo := print_exception code posmap s
  let exc := JsValue.errorObj false (error_message einfo.1.1 ++ ": " ++ einfo.1.2)
  (exc, setException exc einfo.2)

/-- Outcome of running a host callable body together with its argument
marshaling, as the trampoline's try block observes it: a normal
(already converted) result, or one of the four thrown C++ failure
classes its catch ladder distinguishes (details::exception,
details::callback_exception, std::exception, anything else). -/
inductive HostResult where
  | ok (v : JsValue)
  | throwBridge (code : JsErrorCode)
  | throwCallback (msg : String)
  | throwStd (what : String)
  | throwOther
  deriving DecidableEq, Repr

/-- A host callable boxed by value::function, seen at the trampoline
level: it consumes the marshaled parameter vector, may interact with
the engine state, and finishes with a HostResult. -/
abbrev HostCallable := List JsValue → EngineState → HostResult × EngineState

/-- std::wstring_convert from_bytes re-encoding of e.what(); our
strings are abstract text so the re-encoding is the identity. -/
def from_bytes (s : String) : String := s

/-- Parameter vector the trampoline passes to the host callable, from
the engine-supplied argument vector (index 0 is the receiver):
runtime_args = argumentCount - 1; with enough arguments the first arity
of them are taken (extras dropped), otherwise the std::array is
default-filled with empty values and the supplied ones copied in. -/
def tramp_params (arity : Nat) (args : List JsValue) : List JsValue :=
  let runtime_args := args.length - 1
  let rest := args.drop 1
  if runtime_args ≥ arity then rest.take arity
  else rest ++ List.replicate (arity - runtime_args) JsValue.invalid

/-- The catch ladder of the value::function trampoline, dispatching on
what the try block produced: a bridge exception is converted via
to_js_exception; a callback_exception becomes an Error carrying its
message verbatim; a std::exception becomes an Error built from what();
anything else becomes an Error with the fixed text.  Every failure
branch sets the pending exception and returns the constructed Error. -/
def trampoline_catch : HostResult × EngineState → JsValue × EngineState
  | (.ok v, s1) => (v, s1)
  | (.throwBridge code, s1) => to_js_exception code identity_posmap s1
  | (.throwCallback m, s1) =>
      let result := JsValue.errorObj false m
      (result, setException result s1)
  | (.throwStd what, s1) =>
      let result := JsValue.errorObj false (from_bytes what)
      (result, setException result s1)
  | (.throwOther, s1) =>
      let result := JsValue.errorObj false "Unknown error"
      (result, setException result s1)

/-- The engine-invocable trampoline value::function installs: marshal
the arguments per tramp_params, run the boxed callable, contain any
failure per trampoline_catch. -/
def trampoline (arity : Nat) (f : HostCallable) (args : List JsValue)
    (s : EngineState) : JsValue × EngineState :=
  trampoline_catch (f (tramp_params arity args) s)

/-- std::numeric_limits of int, the engine's small-integer bound. -/
def INT_MAX : Int := 2147483647

/-- value::from(int v), i.e. JsIntToNumber. -/
def from_int (v : Int) : JsValue := .number v

/-- value::from(double v), i.e. JsDoubleToNumber; payload exact for
magnitudes at most 2^53. -/
def from_double (v : Int) : JsValue := .number v

/-- value::from for small-int host types that are signed or strictly
narrower than int (the true_type overload): cast to int and use the
integer path. -/
def from_small_int_signed (v : Int) : JsValue := from_int v

/-- value::from for the int-sized unsigned host type (the false_type
overload): values above INT_MAX take the wide double path, the rest the
integer path. -/
def from_small_int_unsigned (v : Int) : JsValue :=
  if v > INT_MAX then from_double v else from_int v

/-- value::from for big-number host types (floating point, and integral
types wider than int): cast to double and use the wide path. -/
def from_big_number (v : Int) : JsValue := from_double v

/-- value::as_small_int(true_type): static_cast of as_int(), for signed
or narrower-than-int host types. -/
def as_small_int_signed (v : JsValue) : Except JsErrorCode Int := as_int v

/-- Translation of value::as_small_int(false_type), the int-sized
unsigned accessor: read as_int(); a negative value creates a RangeError
reading Value is out of range, sets it as the pending exception and
throws a JsErrorScriptException-coded bridge exception; otherwise the
value is returned unchanged (a non-negative int casts to unsigned
losslessly). -/
def as_small_int_unsigned (v : JsValue) (s : EngineState) :
    Except JsErrorCode Int × EngineState :=
  match as_int v with
  | .error c => (.error c, s)
  | .ok val =>
    if val < 0 then
      (.error .JsErrorScriptException,
       setException (.errorObj true "Value is out of range") s)
    else (.ok val, s)

/-- The property descriptor object value::property builds and passes to
JsDefineProperty: the configurable field, and the engine function
values created by function over the getter and the setter.  The
function fields are the installed trampolines, i.e. what the engine
runs when script reads or writes the property. -/
structure property_descriptor where
  configurable : Bool
  get : List JsValue → EngineState → JsValue × EngineState
  set : List JsValue → EngineState → JsValue × EngineState

/-- value::function as a callable engine value: the installed
trampoline over the boxed host callable. -/
def js_function (arity : Nat) (f : HostCallable) :
    List JsValue → EngineState → JsValue × EngineState :=
  fun args s => trampoline arity f args s

/-- The stub setter lambda installed by the getter-only
value::property overload: creates an Error whose message is the
property name followed by the read-only text, sets it as the pending
exception, and returns it.  It runs only when script writes the
property. -/
def read_only_setter (name : String) : HostCallable :=
  fun _ s =>
    let exc := JsValue.errorObj false (name ++ ": property is read-only")
    (.ok exc, setException exc s)

/-- Translation of the getter-only value::property overload: builds the
descriptor with configurable false, the getter bound at arity 0 and the
stub setter bound at arity 1, and defines the property.  Building and
defining the descriptor performs no failing engine call and touches no
pending-exception state, which the returned state records. -/
def property_getter_only (name : String) (getter : HostCallable)
    (s : EngineState) : property_descriptor × EngineState :=
  ({ configurable := false
     get := js_function 0 getter
     set := js_function 1 (read_only_setter name) }, s)

/-- One operation of the referenced_value special-member ledger model.
Instances are numbered in creation order; an operand names a live
instance.  ctor full covers referenced_value(const value and o): the
new instance copies the handle (full when o is the pinned non-empty
value, empty otherwise) and add_ref runs. -/
inductive rv_op where
  | ctor (full : Bool)
  | copy_ctor (src : Nat)
  | move_ctor (src : Nat)
  | copy_assign (dst src : Nat)
  | move_assign (dst src : Nat)
  | destroy (i : Nat)
  deriving DecidableEq, Repr

/-- Ledger state for referenced_value instances derived from one pinned
value: insts maps each instance number to none (destroyed) or some b
(live, b true when it holds the non-empty pinned handle, false when its
handle is JS_INVALID_REFERENCE).  counter is the net JsAddRef minus
JsRelease calls these instances have issued (add_ref and release are
no-ops on an invalid handle). -/
structure rv_state where
  insts : List (Option Bool)
  counter : Int
  deriving DecidableEq, Repr

/-- Ledger effect of one referenced_value special member, translated
from the source: construction from a value add_refs when non-empty;
copy construction copies then add_refs; move construction copies the
handle, resets the source to JS_INVALID_REFERENCE and touches no count;
copy assignment releases the old handle, copies, then add_refs; move
assignment swaps the two handles and touches no count; the destructor
releases.  Operations naming a dead or unknown instance are rejected. -/
def rv_step (s : rv_state) : rv_op → Option rv_state
  | .ctor full =>
      some ⟨s.insts ++ [some full], s.counter + if full then 1 else 0⟩
  | .copy_ctor src =>
      match s.insts[src]? with
      | some (some b) =>
          some ⟨s.insts ++ [some b], s.counter + if b then 1 else 0⟩
      | _ => none
  | .move_ctor src =>
      match s.insts[src]? with
      | some (some b) =>
          some ⟨(s.insts.set src (some false)) ++ [some b], s.counter⟩
      | _ => none
  | .copy_assign dst src =>
      match s.insts[dst]?, s.insts[src]? with
      | some (some bd), some (some bs) =>
          some ⟨s.insts.set dst (some bs),
                s.counter - (if bd then 1 else 0) + (if bs then 1 else 0)⟩
      | _, _ => none
  | .move_assign dst src =>
      match s.insts[dst]?, s.insts[src]? with
      | some (some bd), some (some bs) =>
          some ⟨(s.insts.set dst (some bs)).set src (some bd), s.counter⟩
      | _, _ => none
  | .destroy i =>
      match s.insts[i]? with
      | some (some b) =>
          some ⟨s.insts.set i none, s.counter - if b then 1 else 0⟩
      | _ => none

/-- Run a sequence of referenced_value operations. -/
def rv_run (s : rv_state) : List rv_op → Option rv_state
  | [] => some s
  | op :: ops =>
    match rv_step s op with
    | some s1 => rv_run s1 ops
    | none => none

/-- The state before any instance exists. -/
def rv_init : rv_state := ⟨[], 0⟩

/-- Number of currently live instances holding the pinned handle. -/
def live_full_count (s : rv_state) : Nat :=
  s.insts.countP (fun o => o == some true)

/-- Claim C1: every host failure raised during marshaling or inside the
callable body while the trampoline runs (bridge exception, callback
failure, standard host exception, or any other thrown object) is caught
by the trampoline, the engine's pending-exception state is set, and a
constructed Error value is returned as the trampoline's result; no
failure is rethrown past the engine's call boundary (the trampoline is
a total function into a value-and-state pair). -/
theorem trampoline_contains_host_failures (arity : Nat) (f : HostCallable)
    (args : List JsValue) (s : EngineState)
    (h : ∀ v, (f (tramp_params arity args) s).1 ≠ HostResult.ok v) :
    is_error (trampoline arity f args s).1 = true ∧
    (trampoline arity f args s).2.pending = some (trampoline arity f args s).1 := by
  rcases hf : f (tramp_params arity args) s with ⟨r, s1⟩
  cases r with
  | ok v => exact absurd (show (f (tramp_params arity args) s).1 = .ok v by rw [hf]) (h v)
  | throwBridge code =>
      constructor <;>
        simp [trampoline, hf, trampoline_catch, to_js_exception, setException, is_error]
  | throwCallback m =>
      constructor <;> simp [trampoline, hf, trampoline_catch, setException, is_error]
  | throwStd w =>
      constructor <;> simp [trampoline, hf, trampoline_catch, setException, is_error]
  | throwOther =>
      constructor <;> simp [trampoline, hf, trampoline_catch, setException, is_error]

/-- Witness for C1 at a concrete failing callable. -/
theorem trampoline_contains_host_failures_witness :
    is_error (trampoline 1 (fun _ s => (.throwOther, s)) [JsValue.undefined] ⟨none⟩).1 = true ∧
    (trampoline 1 (fun _ s => (.throwOther, s)) [JsValue.undefined] ⟨none⟩).2.pending =
      some (trampoline 1 (fun _ s => (.throwOther, s)) [JsValue.undefined] ⟨none⟩).1 :=
  trampoline_contains_host_failures 1 (fun _ s => (.throwOther, s)) [JsValue.undefined]
    ⟨none⟩ (fun _ hv => nomatch hv)

/-- Claim C2: with declared arity N and runtime argument count R at
least N, the host callable receives exactly the first N positional
arguments and the extras are discarded, so the invocation behaves
identically to one with exactly N arguments. -/
theorem trampoline_drops_extra_args (arity : Nat) (f : HostCallable)
    (recv : JsValue) (rest : List JsValue) (s : EngineState)
    (h : arity ≤ rest.length) :
    tramp_params arity (recv :: rest) = rest.take arity ∧
    trampoline arity f (recv :: rest) s = trampoline arity f (recv :: rest.take arity) s := by
  have h1 : tramp_params arity (recv :: rest) = rest.take arity := by
    simp [tramp_params, h]
  have h2 : tramp_params arity (recv :: rest.take arity) = rest.take arity := by
    simp [tramp_params, List.take_take, Nat.min_eq_left h]
  exact ⟨h1, by simp only [trampoline, h1, h2]⟩

/-- Witness for C2: arity 1, two supplied arguments. -/
theorem trampoline_drops_extra_args_witness :
    tramp_params 1 [JsValue.undefined, JsValue.number 2, JsValue.number 3] =
      [JsValue.number 2] ∧
    trampoline 1 (fun ps s => (.ok (ps.headD .undefined), s))
        [JsValue.undefined, JsValue.number 2, JsValue.number 3] ⟨none⟩ =
      trampoline 1 (fun ps s => (.ok (ps.headD .undefined), s))
        [JsValue.undefined, JsValue.number 2] ⟨none⟩ :=
  trampoline_drops_extra_args 1 (fun ps s => (.ok (ps.headD .undefined), s))
    JsValue.undefined [JsValue.number 2, JsValue.number 3] ⟨none⟩ (by decide)

/-- Claim C3: with runtime argument count R below the declared arity N,
the trampoline builds an N-length parameter array whose first R slots
are the supplied arguments and whose remaining N minus R slots are
empty placeholder values, and dispatch to the host callable goes
through (an ok result of the callable is returned unchanged, so the
argument count itself causes no failure). -/
theorem trampoline_pads_missing_args (arity : Nat) (f : HostCallable)
    (recv : JsValue) (rest : List JsValue) (s : EngineState) (v : JsValue)
    (s1 : EngineState) (h : rest.length < arity)
    (hok : f (rest ++ List.replicate (arity - rest.length) JsValue.invalid) s = (.ok v, s1)) :
    tramp_params arity (recv :: rest) =
      rest ++ List.replicate (arity - rest.length) JsValue.invalid ∧
    (tramp_params arity (recv :: rest)).length = arity ∧
    trampoline arity f (recv :: rest) s = (v, s1) := by
  have h1 : tramp_params arity (recv :: rest) =
      rest ++ List.replicate (arity - rest.length) JsValue.invalid := by
    simp [tramp_params, Nat.not_le.mpr h]
  refine ⟨h1, ?_, ?_⟩
  · rw [h1]; simp; omega
  · rw [trampoline, h1, hok]; rfl

/-- Witness for C3: arity 2, one supplied argument. -/
theorem trampoline_pads_missing_args_witness :
    tramp_params 2 [JsValue.undefined, JsValue.number 7] =
      [JsValue.number 7, JsValue.invalid] ∧
    (tramp_params 2 [JsValue.undefined, JsValue.number 7]).length = 2 ∧
    trampoline 2 (fun ps s => (.ok (ps.headD .undefined), s))
        [JsValue.undefined, JsValue.number 7] ⟨none⟩ = (JsValue.number 7, ⟨none⟩) :=
  trampoline_pads_missing_args 2 (fun ps s => (.ok (ps.headD .undefined), s))
    JsValue.undefined [JsValue.number 7] ⟨none⟩ (JsValue.number 7) ⟨none⟩
    (by decide) rfl

/-- ToInt32 is the identity on the 32-bit signed range. -/
theorem toInt32_of_small (n : Int) (h1 : -2 ^ 31 ≤ n) (h2 : n < 2 ^ 31) :
    toInt32 n = n := by
  unfold toInt32
  rw [Int.emod_eq_of_lt (by omega) (by omega)]
  omega

/-- ToInt32 wraps values of the upper unsigned 32-bit half to their
negative representatives. -/
theorem toInt32_of_high (n : Int) (h1 : 2 ^ 31 ≤ n) (h2 : n < 2 ^ 32) :
    toInt32 n = n - 2 ^ 32 := by
  unfold toInt32
  omega

/-- Counterexample to claim C4 as stated: the catch-all branch of the
trampoline labels an unclassified host failure with the fixed text
Unknown error, not Unhandled Exception. -/
theorem trampoline_unclassified_message_cex :
    (trampoline 0 (fun _ s => (.throwOther, s)) [JsValue.undefined] ⟨none⟩).1 =
      JsValue.errorObj false "Unknown error" ∧
    "Unknown error" ≠ "Unhandled Exception" :=
  ⟨rfl, by decide⟩

/-- Claim C4 (amended): when the host callable raises an unclassified
failure, the trampoline produces a script-visible Error whose message
is exactly the fixed generic text Unknown error, and sets it as the
pending exception. -/
theorem trampoline_unclassified_generic_message (arity : Nat) (f : HostCallable)
    (args : List JsValue) (s : EngineState)
    (h : (f (tramp_params arity args) s).1 = .throwOther) :
    (trampoline arity f args s).1 = JsValue.errorObj false "Unknown error" ∧
    (trampoline arity f args s).2 =
      setException (JsValue.errorObj false "Unknown error")
        (f (tramp_params arity args) s).2 := by
  rcases hf : f (tramp_params arity args) s with ⟨r, s1⟩
  rw [hf] at h
  cases h
  constructor <;> simp [trampoline, hf, trampoline_catch]

/-- Witness for the amended C4. -/
theorem trampoline_unclassified_generic_message_witness :
    (trampoline 0 (fun _ s => (.throwOther, s)) [JsValue.null] ⟨none⟩).1 =
      JsValue.errorObj false "Unknown error" ∧
    (trampoline 0 (fun _ s => (.throwOther, s)) [JsValue.null] ⟨none⟩).2 =
      setException (JsValue.errorObj false "Unknown error")
        ((fun (_ : List JsValue) (s : EngineState) => (HostResult.throwOther, s))
          (tramp_params 0 [JsValue.null]) ⟨none⟩).2 :=
  trampoline_unclassified_generic_message 0 (fun _ s => (.throwOther, s))
    [JsValue.null] ⟨none⟩ rfl

/-- Claim C5: a designated callback failure carrying message m makes
the trampoline produce a script-visible Error whose message is exactly
m, set as the pending exception. -/
theorem trampoline_callback_message_verbatim (arity : Nat) (f : HostCallable)
    (args : List JsValue) (s : EngineState) (m : String)
    (h : (f (tramp_params arity args) s).1 = .throwCallback m) :
    (trampoline arity f args s).1 = JsValue.errorObj false m ∧
    (trampoline arity f args s).2 =
      setException (JsValue.errorObj false m) (f (tramp_params arity args) s).2 := by
  rcases hf : f (tramp_params arity args) s with ⟨r, s1⟩
  rw [hf] at h
  cases h
  constructor <;> simp [trampoline, hf, trampoline_catch]

/-- Witness for C5: a callback failure with message bad input yields an
Error whose message is exactly bad input. -/
theorem trampoline_callback_message_verbatim_witness :
    (trampoline 1 (fun _ s => (.throwCallback "bad input", s))
        [JsValue.undefined, JsValue.number 1] ⟨none⟩).1 =
      JsValue.errorObj false "bad input" ∧
    (trampoline 1 (fun _ s => (.throwCallback "bad input", s))
        [JsValue.undefined, JsValue.number 1] ⟨none⟩).2 =
      setException (JsValue.errorObj false "bad input")
        ((fun (_ : List JsValue) (s : EngineState) =>
            (HostResult.throwCallback "bad input", s))
          (tramp_params 1 [JsValue.undefined, JsValue.number 1]) ⟨none⟩).2 :=
  trampoline_callback_message_verbatim 1 (fun _ s => (.throwCallback "bad input", s))
    [JsValue.undefined, JsValue.number 1] ⟨none⟩ "bad input" rfl

/-- Counterexample to claim C6 as stated: the unsigned 32-bit value
2^31 exceeds the small-integer range, so conversion takes the wide
double path (exactly, 2^31 being well inside double precision), but
converting the dynamic value back to the unsigned host type does not
return the original value: the engine's int conversion wraps it
negative and the accessor fails with a ScriptException-coded bridge
failure instead. -/
theorem int_conversion_round_trip_cex :
    from_small_int_unsigned 2147483648 = from_double 2147483648 ∧
    (2147483648 : Int).natAbs ≤ 2 ^ 53 ∧
    (as_small_int_unsigned (from_small_int_unsigned 2147483648) ⟨none⟩).1 =
      .error .JsErrorScriptException ∧
    (Except.error .JsErrorScriptException : Except JsErrorCode Int) ≠
      .ok 2147483648 :=
  ⟨by decide, by decide, rfl, fun h => nomatch h⟩

/-- Claim C6 (amended): a host integer in the engine's small-integer
(native int) range converts to a dynamic value and back to the host
integer type yielding the original value, on the signed small-int path
as well as the unsigned one; for magnitudes exceeding that range the
conversion goes through the wide-numeric double path, whose dynamic
payload is the integer exactly (up to double precision) and whose wide
accessor round-trips it exactly, but converting such an
out-of-small-range value back through the 32-bit unsigned accessor
fails with a pending RangeError because the engine's int conversion
wraps it to a negative value. -/
theorem int_conversion_round_trip (v u w b : Int) (s : EngineState)
    (hv1 : -2 ^ 31 ≤ v) (hv2 : v < 2 ^ 31)
    (hu1 : 0 ≤ u) (hu2 : u ≤ INT_MAX)
    (hw1 : INT_MAX < w) (hw2 : w < 2 ^ 32)
    (_hb : b.natAbs ≤ 2 ^ 53) :
    as_small_int_signed (from_small_int_signed v) = .ok v ∧
    as_small_int_unsigned (from_small_int_unsigned u) s = (.ok u, s) ∧
    from_small_int_unsigned w = from_double w ∧
    from_big_number b = from_double b ∧
    as_double (from_big_number b) = .ok b ∧
    as_small_int_unsigned (from_small_int_unsigned w) s =
      (.error .JsErrorScriptException,
       setException (.errorObj true "Value is out of range") s) := by
  have hINT : INT_MAX = 2 ^ 31 - 1 := by decide
  refine ⟨?_, ?_, ?_, rfl, rfl, ?_⟩
  · simp [as_small_int_signed, from_small_int_signed, from_int, as_int,
      toInt32_of_small v hv1 hv2]
  · have hle : ¬ u > INT_MAX := by omega
    simp only [from_small_int_unsigned, if_neg hle]
    simp [from_int, as_small_int_unsigned, as_int,
      toInt32_of_small u (by omega) (by omega)]
    omega
  · simp [from_small_int_unsigned, hw1]
  · have hgt : w > INT_MAX := hw1
    simp only [from_small_int_unsigned, if_pos hgt]
    have hwrap : toInt32 w = w - 2 ^ 32 := toInt32_of_high w (by omega) hw2
    simp [from_double, as_small_int_unsigned, as_int, hwrap]
    omega

/-- Witness for the amended C6. -/
theorem int_conversion_round_trip_witness :
    as_small_int_signed (from_small_int_signed (-5)) = .ok (-5) ∧
    as_small_int_unsigned (from_small_int_unsigned 12) ⟨none⟩ = (.ok 12, ⟨none⟩) ∧
    from_small_int_unsigned 2147483649 = from_double 2147483649 ∧
    from_big_number 9007199254740992 = from_double 9007199254740992 ∧
    as_double (from_big_number 9007199254740992) = .ok 9007199254740992 ∧
    as_small_int_unsigned (from_small_int_unsigned 2147483649) ⟨none⟩ =
      (.error .JsErrorScriptException,
       setException (.errorObj true "Value is out of range") ⟨none⟩) :=
  int_conversion_round_trip (-5) 12 2147483649 9007199254740992 ⟨none⟩
    (by decide) (by decide) (by decide) (by decide) (by decide) (by decide)
    (by decide)

/-- Claim C10: the unsigned int-sized accessor fails on negative
underlying integers with a RangeError reading Value is out of range set
as the pending exception and a bridge failure whose code maps to the
ScriptError category, and returns non-negative underlying integers
unchanged. -/
theorem as_small_int_unsigned_range_check (n : Int) (s : EngineState)
    (h1 : -2 ^ 31 ≤ n) (h2 : n < 2 ^ 31) :
    (n < 0 →
      as_small_int_unsigned (JsValue.number n) s =
        (.error .JsErrorScriptException,
         setException (.errorObj true "Value is out of range") s)) ∧
    (0 ≤ n → as_small_int_unsigned (JsValue.number n) s = (.ok n, s)) ∧
    map_error .JsErrorScriptException = .ScriptError := by
  refine ⟨?_, ?_, rfl⟩ <;> intro h <;>
    simp [as_small_int_unsigned, as_int, toInt32_of_small n h1 h2] <;>
    omega

/-- Witness for C10 at the negative input minus one. -/
theorem as_small_int_unsigned_range_check_witness :
    as_small_int_unsigned (JsValue.number (-1)) ⟨none⟩ =
      (.error .JsErrorScriptException,
       setException (.errorObj true "Value is out of range") ⟨none⟩) :=
  (as_small_int_unsigned_range_check (-1) ⟨none⟩ (by decide) (by decide)).1
    (by decide)

/-- The ledger invariant: the net JsAddRef minus JsRelease calls issued
by the referenced_value instances equal the number of currently live
instances that hold the pinned handle. -/
def rv_inv (s : rv_state) : Prop :=
  s.counter = (live_full_count s : Int)

/-- countP-over-set bookkeeping in integer form. -/
theorem countP_set_int (l : List (Option Bool)) (i : Nat) (a : Option Bool)
    (h : i < l.length) :
    (((l.set i a).countP (fun o => o == some true) : Nat) : Int) =
      ((l.countP (fun o => o == some true) : Nat) : Int) -
        (if l[i] == some true then 1 else 0) +
        (if a == some true then 1 else 0) := by
  have h1 := List.countP_set (fun o => o == some true) l i a h
  cases hpi : (l[i] == some true) <;> cases hpa : (a == some true) <;>
    simp [hpi, hpa] at h1 ⊢
  all_goals try omega
  all_goals
    have h2 : 0 < l.countP (fun o => o == some true) :=
      List.countP_pos_iff.mpr ⟨l[i], List.getElem_mem h, hpi⟩
    omega

/-- Every referenced_value special member preserves the ledger
invariant. -/
theorem rv_step_preserves_inv (s t : rv_state) (op : rv_op)
    (hs : rv_inv s) (h : rv_step s op = some t) : rv_inv t := by
  cases op with
  | ctor full =>
    simp only [rv_step, Option.some.injEq] at h
    subst h
    cases full <;>
      simp_all [rv_inv, live_full_count, List.countP_append, List.countP_cons] <;>
      omega
  | copy_ctor src =>
    rcases hsrc : s.insts[src]? with _ | o
    · simp [rv_step, hsrc] at h
    · rcases o with _ | b
      · simp [rv_step, hsrc] at h
      · simp only [rv_step, hsrc, Option.some.injEq] at h
        subst h
        cases b <;>
          simp_all [rv_inv, live_full_count, List.countP_append, List.countP_cons] <;>
          omega
  | move_ctor src =>
    rcases hsrc : s.insts[src]? with _ | o
    · simp [rv_step, hsrc] at h
    · rcases o with _ | b
      · simp [rv_step, hsrc] at h
      · simp only [rv_step, hsrc, Option.some.injEq] at h
        subst h
        obtain ⟨hlt, hget⟩ := List.getElem?_eq_some_iff.mp hsrc
        have hset := countP_set_int s.insts src (some false) hlt
        rw [hget] at hset
        cases b <;>
          simp_all [rv_inv, live_full_count, List.countP_append, List.countP_cons] <;>
          omega
  | copy_assign dst src =>
    rcases hdst : s.insts[dst]? with _ | od
    · simp [rv_step, hdst] at h
    · rcases od with _ | bd
      · simp [rv_step, hdst] at h
      · rcases hsrc : s.insts[src]? with _ | os
        · simp [rv_step, hdst, hsrc] at h
        · rcases os with _ | bs
          · simp [rv_step, hdst, hsrc] at h
          · simp only [rv_step, hdst, hsrc, Option.some.injEq] at h
            subst h
            obtain ⟨hltd, hgetd⟩ := List.getElem?_eq_some_iff.mp hdst
            have hset := countP_set_int s.insts dst (some bs) hltd
            rw [hgetd] at hset
            cases bd <;> cases bs <;>
              simp_all [rv_inv, live_full_count] <;> omega
  | move_assign dst src =>
    rcases hdst : s.insts[dst]? with _ | od
    · simp [rv_step, hdst] at h
    · rcases od with _ | bd
      · simp [rv_step, hdst] at h
      · rcases hsrc : s.insts[src]? with _ | os
        · simp [rv_step, hdst, hsrc] at h
        · rcases os with _ | bs
          · simp [rv_step, hdst, hsrc] at h
          · simp only [rv_step, hdst, hsrc, Option.some.injEq] at h
            subst h
            obtain ⟨hltd, hgetd⟩ := List.getElem?_eq_some_iff.mp hdst
            obtain ⟨hlts, hgets⟩ := List.getElem?_eq_some_iff.mp hsrc
            have hset1 := countP_set_int s.insts dst (some bs) hltd
            rw [hgetd] at hset1
            have hlts2 : src < (s.insts.set dst (some bs)).length := by
              simpa using hlts
            have hset2 := countP_set_int (s.insts.set dst (some bs)) src (some bd) hlts2
            have hval : (s.insts.set dst (some bs))[src] = some bs := by
              by_cases hds : dst = src
              · subst hds
                simp
              · rw [List.getElem_set_ne hds]
                exact hgets
            rw [hval] at hset2
            cases bd <;> cases bs <;>
              simp_all [rv_inv, live_full_count] <;> omega
  | destroy i =>
    rcases hi : s.insts[i]? with _ | o
    · simp [rv_step, hi] at h
    · rcases o with _ | b
      · simp [rv_step, hi] at h
      · simp only [rv_step, hi, Option.some.injEq] at h
        subst h
        obtain ⟨hlt, hget⟩ := List.getElem?_eq_some_iff.mp hi
        have hset := countP_set_int s.insts i none hlt
        rw [hget] at hset
        cases b <;>
          simp_all [rv_inv, live_full_count] <;> omega

/-- Running any sequence of valid referenced_value operations preserves
the ledger invariant. -/
theorem rv_run_preserves_inv (ops : List rv_op) (s sf : rv_state)
    (hs : rv_inv s) (h : rv_run s ops = some sf) : rv_inv sf := by
  induction ops generalizing s with
  | nil =>
    simp only [rv_run, Option.some.injEq] at h
    exact h ▸ hs
  | cons op ops ih =>
    simp only [rv_run] at h
    rcases hstep : rv_step s op with _ | t
    · rw [hstep] at h
      exact absurd h (by simp)
    · rw [hstep] at h
      exact ih t (rv_step_preserves_inv s t op hs hstep) h

/-- Claim C7: for every sequence of constructions, copies, moves and
destructions of referenced_value instances derived from one pinned
value, the net engine increments minus decrements equal the number of
currently live non-empty clones at every point (every point of a
sequence being reached by running one of its prefixes from the initial
state); destroying a non-empty instance decrements exactly once, and an
operation whose operands are all empty instances never changes the
ledger. -/
theorem referenced_value_ledger_balanced (ops : List rv_op) (sf : rv_state)
    (s t : rv_state) (i j : Nat)
    (h : rv_run rv_init ops = some sf) :
    sf.counter = (live_full_count sf : Int) ∧
    (s.insts[i]? = some (some true) → rv_step s (.destroy i) = some t →
      t.counter = s.counter - 1) ∧
    (s.insts[i]? = some (some false) → rv_step s (.destroy i) = some t →
      t.counter = s.counter) ∧
    (rv_step s (.ctor false) = some t → t.counter = s.counter) ∧
    (s.insts[i]? = some (some false) → rv_step s (.copy_ctor i) = some t →
      t.counter = s.counter) ∧
    (s.insts[i]? = some (some false) → rv_step s (.move_ctor i) = some t →
      t.counter = s.counter) ∧
    (s.insts[i]? = some (some false) → s.insts[j]? = some (some false) →
      rv_step s (.copy_assign i j) = some t → t.counter = s.counter) ∧
    (s.insts[i]? = some (some false) → s.insts[j]? = some (some false) →
      rv_step s (.move_assign i j) = some t → t.counter = s.counter) := by
  refine ⟨rv_run_preserves_inv ops rv_init sf (by simp [rv_inv, rv_init, live_full_count]) h, ?_, ?_, ?_, ?_, ?_, ?_, ?_⟩
  · intro hfull hstep
    simp only [rv_step, hfull, Option.some.injEq] at hstep
    subst hstep
    simp
  · intro hempty hstep
    simp only [rv_step, hempty, Option.some.injEq] at hstep
    subst hstep
    simp
  · intro hstep
    simp only [rv_step, Option.some.injEq] at hstep
    subst hstep
    simp
  · intro hempty hstep
    simp only [rv_step, hempty, Option.some.injEq] at hstep
    subst hstep
    simp
  · intro hempty hstep
    simp only [rv_step, hempty, Option.some.injEq] at hstep
    subst hstep
    simp
  · intro hi hj hstep
    simp only [rv_step, hi, hj, Option.some.injEq] at hstep
    subst hstep
    simp
  · intro hi hj hstep
    simp only [rv_step, hi, hj, Option.some.injEq] at hstep
    subst hstep
    simp

/-- Witness for C7 on the sequence pin, copy, destroy both. -/
theorem referenced_value_ledger_balanced_witness :
    (⟨[none, none], 0⟩ : rv_state).counter =
      (live_full_count ⟨[none, none], 0⟩ : Int) ∧
    ((⟨[some false], 0⟩ : rv_state).insts[0]? = some (some true) →
      rv_step ⟨[some false], 0⟩ (.destroy 0) = some ⟨[none], 0⟩ →
      (⟨[none], 0⟩ : rv_state).counter = (⟨[some false], 0⟩ : rv_state).counter - 1) ∧
    ((⟨[some false], 0⟩ : rv_state).insts[0]? = some (some false) →
      rv_step ⟨[some false], 0⟩ (.destroy 0) = some ⟨[none], 0⟩ →
      (⟨[none], 0⟩ : rv_state).counter = (⟨[some false], 0⟩ : rv_state).counter) ∧
    (rv_step ⟨[some false], 0⟩ (.ctor false) = some ⟨[none], 0⟩ →
      (⟨[none], 0⟩ : rv_state).counter = (⟨[some false], 0⟩ : rv_state).counter) ∧
    ((⟨[some false], 0⟩ : rv_state).insts[0]? = some (some false) →
      rv_step ⟨[some false], 0⟩ (.copy_ctor 0) = some ⟨[none], 0⟩ →
      (⟨[none], 0⟩ : rv_state).counter = (⟨[some false], 0⟩ : rv_state).counter) ∧
    ((⟨[some false], 0⟩ : rv_state).insts[0]? = some (some false) →
      rv_step ⟨[some false], 0⟩ (.move_ctor 0) = some ⟨[none], 0⟩ →
      (⟨[none], 0⟩ : rv_state).counter = (⟨[some false], 0⟩ : rv_state).counter) ∧
    ((⟨[some false], 0⟩ : rv_state).insts[0]? = some (some false) →
      (⟨[some false], 0⟩ : rv_state).insts[0]? = some (some false) →
      rv_step ⟨[some false], 0⟩ (.copy_assign 0 0) = some ⟨[none], 0⟩ →
      (⟨[none], 0⟩ : rv_state).counter = (⟨[some false], 0⟩ : rv_state).counter) ∧
    ((⟨[some false], 0⟩ : rv_state).insts[0]? = some (some false) →
      (⟨[some false], 0⟩ : rv_state).insts[0]? = some (some false) →
      rv_step ⟨[some false], 0⟩ (.move_assign 0 0) = some ⟨[none], 0⟩ →
      (⟨[none], 0⟩ : rv_state).counter = (⟨[some false], 0⟩ : rv_state).counter) :=
  referenced_value_ledger_balanced
    [.ctor true, .copy_ctor 0, .destroy 0, .destroy 1] ⟨[none, none], 0⟩
    ⟨[some false], 0⟩ ⟨[none], 0⟩ 0 0 (by decide)

/-- Counterexample to claim C8 as stated: move assignment between two
pinned instances is a swap, so the moved-from source (instance 1) is
left holding the destination's former non-empty handle rather than
being left in the Empty state. -/
theorem referenced_value_move_assign_source_cex :
    rv_run rv_init [.ctor true, .ctor true, .move_assign 0 1] =
      some ⟨[some true, some true], 2⟩ ∧
    (⟨[some true, some true], 2⟩ : rv_state).insts[1]? = some (some true) ∧
    (some (some true) : Option (Option Bool)) ≠ some (some false) := by
  decide

/-- Claim C8 (amended): move construction transfers the wrapped handle
to the new instance, leaves the moved-from source Empty, and changes no
reference count; move assignment exchanges the two handles with no
count change, so the destination receives the source's handle while the
source is left holding the destination's previous handle (hence Empty
exactly when the destination was Empty). -/
theorem referenced_value_move_semantics (s : rv_state) (dst src : Nat)
    (bd bs : Bool)
    (hd : s.insts[dst]? = some (some bd)) (hs : s.insts[src]? = some (some bs)) :
    rv_step s (.move_ctor src) =
      some ⟨(s.insts.set src (some false)) ++ [some bs], s.counter⟩ ∧
    ((s.insts.set src (some false)) ++ [some bs])[src]? = some (some false) ∧
    ((s.insts.set src (some false)) ++ [some bs])[s.insts.length]? = some (some bs) ∧
    rv_step s (.move_assign dst src) =
      some ⟨(s.insts.set dst (some bs)).set src (some bd), s.counter⟩ ∧
    ((s.insts.set dst (some bs)).set src (some bd))[src]? = some (some bd) ∧
    (dst ≠ src → ((s.insts.set dst (some bs)).set src (some bd))[dst]? =
      some (some bs)) := by
  obtain ⟨hlts, _⟩ := List.getElem?_eq_some_iff.mp hs
  obtain ⟨hltd, _⟩ := List.getElem?_eq_some_iff.mp hd
  refine ⟨by simp [rv_step, hs], ?_, ?_, by simp [rv_step, hd, hs], ?_, ?_⟩
  · rw [List.getElem?_append_left (by simpa using hlts)]
    exact List.getElem?_set_self (by simpa using hlts)
  · rw [List.getElem?_append_right (by simp)]
    simp
  · exact List.getElem?_set_self (by simpa using hlts)
  · intro hne
    rw [List.getElem?_set_ne (Ne.symm hne)]
    exact List.getElem?_set_self (by simpa using hltd)

/-- Witness for the amended C8 on two live instances. -/
theorem referenced_value_move_semantics_witness :
    rv_step ⟨[some true, some false], 1⟩ (.move_ctor 1) =
      some ⟨(([some true, some false] : List (Option Bool)).set 1 (some false)) ++
        [some false], 1⟩ ∧
    ((([some true, some false] : List (Option Bool)).set 1 (some false)) ++
      [some false])[1]? = some (some false) ∧
    ((([some true, some false] : List (Option Bool)).set 1 (some false)) ++
      [some false])[([some true, some false] : List (Option Bool)).length]? =
      some (some false) ∧
    rv_step ⟨[some true, some false], 1⟩ (.move_assign 0 1) =
      some ⟨((([some true, some false] : List (Option Bool)).set 0
        (some false)).set 1 (some true)), 1⟩ ∧
    (((([some true, some false] : List (Option Bool)).set 0
      (some false)).set 1 (some true)))[1]? = some (some true) ∧
    ((0 : Nat) ≠ 1 → (((([some true, some false] : List (Option Bool)).set 0
      (some false)).set 1 (some true)))[0]? = some (some false)) :=
  referenced_value_move_semantics ⟨[some true, some false], 1⟩ 0 1 true false
    (by decide) (by decide)

/-- Claim C9: the getter-only property overload installs a
non-configurable accessor; its stub setter, whenever invoked, returns a
script-visible Error whose message is the property name followed by the
read-only text and sets it as the pending exception; defining the
property changes no pending-exception state (the failure is raised at
write time only); and reading the property through the installed getter
function returns the getter's result. -/
theorem property_getter_only_spec (name : String) (getter : HostCallable)
    (s s0 s1 : EngineState) (recv arg v : JsValue)
    (hget : getter [] s0 = (.ok v, s1)) :
    (property_getter_only name getter s).2.pending = s.pending ∧
    (property_getter_only name getter s).1.configurable = false ∧
    ((property_getter_only name getter s).1.set [recv, arg] s0).1 =
      JsValue.errorObj false (name ++ ": property is read-only") ∧
    ((property_getter_only name getter s).1.set [recv, arg] s0).2.pending =
      some (JsValue.errorObj false (name ++ ": property is read-only")) ∧
    (property_getter_only name getter s).1.get [recv] s0 = (v, s1) := by
  refine ⟨rfl, rfl, rfl, rfl, ?_⟩
  have hp : tramp_params 0 [recv] = [] := rfl
  simp only [property_getter_only, js_function, trampoline, hp, hget,
    trampoline_catch]

/-- Witness for C9 with a constant getter. -/
theorem property_getter_only_spec_witness :
    (property_getter_only "a" (fun _ s => (.ok (.number 10), s)) ⟨none⟩).2.pending =
      (⟨none⟩ : EngineState).pending ∧
    (property_getter_only "a" (fun _ s => (.ok (.number 10), s)) ⟨none⟩).1.configurable =
      false ∧
    ((property_getter_only "a" (fun _ s => (.ok (.number 10), s)) ⟨none⟩).1.set
        [JsValue.undefined, JsValue.number 5] ⟨none⟩).1 =
      JsValue.errorObj false ("a" ++ ": property is read-only") ∧
    ((property_getter_only "a" (fun _ s => (.ok (.number 10), s)) ⟨none⟩).1.set
        [JsValue.undefined, JsValue.number 5] ⟨none⟩).2.pending =
      some (JsValue.errorObj false ("a" ++ ": property is read-only")) ∧
    (property_getter_only "a" (fun _ s => (.ok (.number 10), s)) ⟨none⟩).1.get
        [JsValue.undefined] ⟨none⟩ = (JsValue.number 10, ⟨none⟩) :=
  property_getter_only_spec "a" (fun _ s => (.ok (.number 10), s))
    ⟨none⟩ ⟨none⟩ ⟨none⟩ JsValue.undefined (JsValue.number 5) (JsValue.number 10) rfl
